import Mathlib

/-!
Verification of the natural-language-to-DynamoDB query system
(Streamlit_UI_EI): a shallow embedding of `query_generator.py`,
`app.py`, `dynamo.py` and the tagging strategy of `prompts.py`,
with theorems checking the specification's claims.
-/

/-- JSON values as produced by Python's `json.loads`.  Numbers keep their
source lexeme (the numeral text), so `200` is `num "200"`; Python's
non-standard `NaN`/`Infinity` literals are outside the modelled grammar
(none of the completions at issue contain them). Objects keep their
fields in parse order; duplicate keys follow Python's last-wins lookup
(see `pyGet`). -/
inductive JVal where
  | null
  | bool (b : Bool)
  | num (lit : String)
  | str (s : String)
  | arr (elems : List JVal)
  | obj (fields : List (String × JVal))
  deriving Repr

/-- JSON whitespace as accepted by Python's `json` module between tokens. -/
def isJsonWS (c : Char) : Bool :=
  c = ' ' || c = '\t' || c = '\n' || c = '\r'

/-- Drop leading JSON whitespace. -/
def skipWS (s : List Char) : List Char :=
  s.dropWhile isJsonWS

/-- Hex digit value, if the character is one. -/
def hexVal (c : Char) : Option Nat :=
  if '0' ≤ c ∧ c ≤ '9' then some (c.toNat - '0'.toNat)
  else if 'a' ≤ c ∧ c ≤ 'f' then some (c.toNat - 'a'.toNat + 10)
  else if 'A' ≤ c ∧ c ≤ 'F' then some (c.toNat - 'A'.toNat + 10)
  else none

/-- Parse the four hex digits of a `\uXXXX` escape. -/
def parse4Hex : List Char → Option (Nat × List Char)
  | a :: b :: c :: d :: rest =>
    match hexVal a, hexVal b, hexVal c, hexVal d with
    | some x, some y, some z, some w => some (((x * 16 + y) * 16 + z) * 16 + w, rest)
    | _, _, _, _ => none
  | _ => none

/-- Body of a JSON string after the opening quote: returns the decoded
characters and the remainder after the closing quote.  Faithful to
CPython's strict mode: raw control characters below `0x20` are rejected;
the escapes are the eight RFC 8259 escapes plus `\uXXXX`, with surrogate
pairs combined (a lone surrogate, unrepresentable in a Lean `Char`,
decodes to `NUL`; no input considered in this development contains one). -/
def parseStringBody (fuel : Nat) (acc : List Char) (s : List Char) :
    Option (String × List Char) :=
  match fuel, s with
  | 0, _ => none
  | _, [] => none
  | fuel + 1, c :: rest =>
    if c = '"' then some (String.mk acc.reverse, rest)
    else if c = '\\' then
      match rest with
      | [] => none
      | e :: rest2 =>
        if e = '"' then parseStringBody fuel ('"' :: acc) rest2
        else if e = '\\' then parseStringBody fuel ('\\' :: acc) rest2
        else if e = '/' then parseStringBody fuel ('/' :: acc) rest2
        else if e = 'b' then parseStringBody fuel (Char.ofNat 8 :: acc) rest2
        else if e = 'f' then parseStringBody fuel (Char.ofNat 12 :: acc) rest2
        else if e = 'n' then parseStringBody fuel ('\n' :: acc) rest2
        else if e = 'r' then parseStringBody fuel ('\r' :: acc) rest2
        else if e = 't' then parseStringBody fuel ('\t' :: acc) rest2
        else if e = 'u' then
          match parse4Hex rest2 with
          | none => none
          | some (n, rest3) =>
            if 0xD800 ≤ n ∧ n ≤ 0xDBFF then
              match rest3 with
              | '\\' :: 'u' :: rest4 =>
                match parse4Hex rest4 with
                | some (m, rest5) =>
                  if 0xDC00 ≤ m ∧ m ≤ 0xDFFF then
                    parseStringBody fuel
                      (Char.ofNat (0x10000 + (n - 0xD800) * 0x400 + (m - 0xDC00)) :: acc) rest5
                  else parseStringBody fuel (Char.ofNat n :: acc) rest3
                | none => parseStringBody fuel (Char.ofNat n :: acc) rest3
              | _ => parseStringBody fuel (Char.ofNat n :: acc) rest3
            else parseStringBody fuel (Char.ofNat n :: acc) rest3
        else none
    else if c.toNat < 0x20 then none
    else parseStringBody fuel (c :: acc) rest

/-- Digit run: longest prefix of decimal digits, with the remainder. -/
def takeDigits (s : List Char) : List Char × List Char :=
  (s.takeWhile Char.isDigit, s.dropWhile Char.isDigit)

/-- JSON number, per the grammar CPython's `json` uses
(`-?(0|[1-9][0-9]*)(\.[0-9]+)?([eE][+-]?[0-9]+)?`); the lexeme is kept. -/
def parseNumber (s : List Char) : Option (String × List Char) :=
  let (sign, s1) := match s with
    | '-' :: rest => (['-'], rest)
    | _ => (([] : List Char), s)
  match s1 with
  | [] => none
  | c :: rest =>
    if c = '0' ∨ ('1' ≤ c ∧ c ≤ '9') then
      let (intDigits, s2) :=
        if c = '0' then ([c], rest)
        else
          let (ds, r) := takeDigits rest
          (c :: ds, r)
      let (fracPart, s3) :=
        match s2 with
        | '.' :: r =>
          let (ds, r2) := takeDigits r
          if ds = [] then (([] : List Char), s2) else ('.' :: ds, r2)
        | _ => (([] : List Char), s2)
      let (expPart, s4) :=
        match s3 with
        | e :: r =>
          if e = 'e' ∨ e = 'E' then
            let (esign, r2) := match r with
              | '+' :: rr => (['+'], rr)
              | '-' :: rr => (['-'], rr)
              | _ => (([] : List Char), r)
            let (ds, r3) := takeDigits r2
            if ds = [] then (([] : List Char), s3) else (e :: (esign ++ ds), r3)
          else (([] : List Char), s3)
        | _ => (([] : List Char), s3)
      some (String.mk (sign ++ intDigits ++ fracPart ++ expPart), s4)
    else none

mutual

/-- Recursive-descent JSON value, mirroring CPython's `json` scanner.
The fuel strictly decreases on every nested call; `jsonParse` supplies
more fuel than any input can consume, so exhaustion never occurs on a
syntactically valid document. -/
def parseValue : Nat → List Char → Option (JVal × List Char)
  | 0, _ => none
  | _ + 1, [] => none
  | fuel + 1, c :: rest =>
    if c = 'n' then
      match rest with
      | 'u' :: 'l' :: 'l' :: r => some (JVal.null, r)
      | _ => none
    else if c = 't' then
      match rest with
      | 'r' :: 'u' :: 'e' :: r => some (JVal.bool true, r)
      | _ => none
    else if c = 'f' then
      match rest with
      | 'a' :: 'l' :: 's' :: 'e' :: r => some (JVal.bool false, r)
      | _ => none
    else if c = '"' then
      match parseStringBody (rest.length + 1) [] rest with
      | some (str, r) => some (JVal.str str, r)
      | none => none
    else if c = Char.ofNat 123 then
      match skipWS rest with
      | c2 :: r2 =>
        if c2 = Char.ofNat 125 then some (JVal.obj [], r2)
        else parseMembers fuel [] (c2 :: r2)
      | [] => none
    else if c = '[' then
      match skipWS rest with
      | c2 :: r2 =>
        if c2 = ']' then some (JVal.arr [], r2)
        else parseElems fuel [] (c2 :: r2)
      | [] => none
    else if c = '-' ∨ c.isDigit then
      match parseNumber (c :: rest) with
      | some (lit, r) => some (JVal.num lit, r)
      | none => none
    else none

/-- Members of a JSON object after `{` (first member) or after `,`. -/
def parseMembers : Nat → List (String × JVal) → List Char →
    Option (JVal × List Char)
  | 0, _, _ => none
  | fuel + 1, acc, s =>
    match s with
    | '"' :: rest =>
      match parseStringBody (rest.length + 1) [] rest with
      | none => none
      | some (key, r1) =>
        match skipWS r1 with
        | ':' :: r2 =>
          match parseValue fuel (skipWS r2) with
          | none => none
          | some (v, r3) =>
            match skipWS r3 with
            | ',' :: r4 => parseMembers fuel (acc ++ [(key, v)]) (skipWS r4)
            | c :: r4 =>
              if c = Char.ofNat 125 then some (JVal.obj (acc ++ [(key, v)]), r4)
              else none
            | [] => none
        | _ => none
    | _ => none

/-- Elements of a JSON array after `[` (first element) or after `,`. -/
def parseElems : Nat → List JVal → List Char → Option (JVal × List Char)
  | 0, _, _ => none
  | fuel + 1, acc, s =>
    match parseValue fuel s with
    | none => none
    | some (v, r1) =>
      match skipWS r1 with
      | ',' :: r2 => parseElems fuel (acc ++ [v]) (skipWS r2)
      | ']' :: r2 => some (JVal.arr (acc ++ [v]), r2)
      | _ => none

end

/-- `json.loads`: leading/trailing whitespace is allowed, the whole text
must be consumed, failure is `none` (Python raises `JSONDecodeError`). -/
def jsonParse (s : List Char) : Option JVal :=
  match parseValue (2 * s.length + 4) (skipWS s) with
  | some (v, rest) => if skipWS rest = [] then some v else none
  | none => none

/-! ## The two `re` searches of `QueryGenerator._extract_json`

`_extract_json` (src/query_generator.py, lines 202-221) uses two
`re.search` calls with `re.DOTALL`:
a fenced-code-block pattern (three backticks, an optional `json` tag,
whitespace, a lazily matched brace group, whitespace, three backticks)
and a greedy brace-span pattern.  Both are embedded as direct string
scans equivalent to the leftmost-match backtracking semantics of those
patterns:

* in the fenced pattern, the optional `json` branch commits whenever the
  tag is present (on failure the no-tag branch would have to match a
  brace where `j` stands, so backtracking it never succeeds), and each
  whitespace star is followed by a non-whitespace literal, so consuming
  the maximal whitespace run is the only way it can match; the lazy
  brace group closes at the first closing brace whose tail matches;
* the greedy pattern matches exactly when the first opening brace in the
  text precedes the last closing brace, spanning the two.
-/

/-- The backtick character. -/
def btick : Char := Char.ofNat 96

/-- The opening brace character. -/
def lbrace : Char := Char.ofNat 123

/-- The closing brace character. -/
def rbrace : Char := Char.ofNat 125

/-- The whitespace class of the `re` module for ASCII text (the `\f` and
`\v` characters in addition to JSON whitespace; the non-ASCII code points
that also match `\s` are not modelled, no text at issue contains them). -/
def isReWS (c : Char) : Bool :=
  isJsonWS c || c = Char.ofNat 11 || c = Char.ofNat 12

/-- Drop leading `re` whitespace (a `\s*` directly followed by a
non-whitespace literal consumes exactly this). -/
def skipReWS (s : List Char) : List Char :=
  s.dropWhile isReWS

/-- After the closing brace of the fenced group: whitespace then three
backticks. -/
def fenceTail (s : List Char) : Bool :=
  [btick, btick, btick].isPrefixOf (skipReWS s)

/-- Scan for the lazily matched end of the fenced brace group: the first
closing brace followed by a matching tail closes it.  `acc` holds the
group characters seen so far, in reverse. -/
def fencedBody (acc : List Char) : List Char → Option (List Char)
  | [] => none
  | c :: rest =>
    if c = rbrace ∧ fenceTail rest then some (lbrace :: (acc.reverse ++ [rbrace]))
    else fencedBody (c :: acc) rest

/-- Try the fenced-block pattern anchored at the start of `s`: three
backticks, optionally the `json` tag, whitespace, then the brace group. -/
def tryFencedAt (s : List Char) : Option (List Char) :=
  match s with
  | b1 :: b2 :: b3 :: t =>
    if b1 = btick ∧ b2 = btick ∧ b3 = btick then
      let t2 := if ['j', 's', 'o', 'n'].isPrefixOf t then t.drop 4 else t
      match skipReWS t2 with
      | c :: u => if c = lbrace then fencedBody [] u else none
      | [] => none
    else none
  | _ => none

/-- The first `re.search` of `_extract_json`: leftmost occurrence of the
fenced pattern; returns the brace group (capture group 1). -/
def searchFenced : List Char → Option (List Char)
  | [] => none
  | c :: rest =>
    match tryFencedAt (c :: rest) with
    | some g => some g
    | none => searchFenced rest

/-- The second `re.search` of `_extract_json`: the greedy brace span,
from the first opening brace to the last closing brace (match group 0). -/
def searchGreedy (s : List Char) : Option (List Char) :=
  match s.findIdx? (· = lbrace), s.reverse.findIdx? (· = rbrace) with
  | some i, some rj =>
    let e := s.length - 1 - rj
    if i < e then some ((s.drop i).take (e - i + 1)) else none
  | _, _ => none

/-! ## `QueryGenerator` (src/query_generator.py) -/

/-- Python truthiness of a JSON-decoded value (`if not query_params`):
`None`, `False`, numeric zero, the empty string, the empty list and the
empty dict are falsy.  A numeral is zero exactly when every digit of its
mantissa (the part before any exponent) is `0`. -/
def pyTruthy : JVal → Bool
  | JVal.null => false
  | JVal.bool b => b
  | JVal.num lit =>
    (lit.toList.takeWhile (fun c => ¬ (c = 'e' ∨ c = 'E'))).any
      (fun c => c.isDigit ∧ c ≠ '0')
  | JVal.str s => s ≠ ""
  | JVal.arr xs => ¬ xs.isEmpty
  | JVal.obj fs => ¬ fs.isEmpty

/-- Dictionary lookup, Python semantics: with repeated keys the last
binding wins (Python dicts are built by successive insertion). -/
def pyGet : List (String × JVal) → String → Option JVal
  | [], _ => none
  | kv :: rest, k =>
    match pyGet rest k with
    | some v => some v
    | none => if kv.1 = k then some kv.2 else none

/-- `key in dict`. -/
def pyHasKey (d : List (String × JVal)) (k : String) : Bool :=
  d.any (fun kv => kv.1 = k)

/-- `dict.get(key)`: `None` (here `JVal.null`, equally falsy) when the
key is absent. -/
def pyGetD (d : List (String × JVal)) (k : String) : JVal :=
  (pyGet d k).getD JVal.null

/-- `QueryGenerator._extract_json` (src/query_generator.py, lines
202-221): direct `json.loads`; on failure the fenced-block search, whose
group is parsed — a failure of that parse is caught by the enclosing
`except` and yields the empty dict (the greedy search is NOT reached);
otherwise the greedy search, whose group is parsed the same way; the
empty dict when nothing matched.  The function never raises. -/
def extract_json (s : String) : JVal :=
  let cs := s.toList
  match jsonParse cs with
  | some v => v
  | none =>
    match searchFenced cs with
    | some g =>
      match jsonParse g with
      | some v => v
      | none => JVal.obj []
    | none =>
      match searchGreedy cs with
      | some g =>
        match jsonParse g with
        | some v => v
        | none => JVal.obj []
      | none => JVal.obj []

/-- `QueryGenerator._get_default_query` (src/query_generator.py, lines
223-234), the fields in source order. -/
def default_query : List (String × JVal) :=
  [("query_type", JVal.str "scan"),
   ("partition_key", JVal.null),
   ("filter_expression", JVal.null),
   ("expression_attribute_names", JVal.null),
   ("expression_attribute_values", JVal.null),
   ("projection_attributes", JVal.null),
   ("limit", JVal.num "50"),
   ("explanation", JVal.str "Showing all records (default query)")]

/-- `QueryGenerator.generate_query` (src/query_generator.py, lines
168-200).  The Gateway call `bedrock.invoke_model` is abstracted by its
outcome: `Except.error` when it raises (`BedrockClient.invoke_model`
re-raises any failure), `Except.ok` with the completion text otherwise.
The whole body runs inside `try .. except Exception: return
self._get_default_query()`, so a Gateway error is caught and the default
is returned; a falsy extraction result likewise yields the default; a
truthy non-dict extraction result makes the subsequent `.get` attribute
access raise, which the same `except` turns into the default; a truthy
dict is returned unchanged. -/
def generate_query (gateway : Except String String) : List (String × JVal) :=
  match gateway with
  | Except.error _ => default_query
  | Except.ok text =>
    let qp := extract_json text
    if pyTruthy qp then
      match qp with
      | JVal.obj fields => fields
      | _ => default_query
    else default_query

/-- `QueryGenerator.validate_query` (src/query_generator.py, lines
236-250): required keys `query_type` and `limit` in that order, then the
value check on `query_type`, then the partition-key requirement for
`query`. -/
def validate_query (qp : List (String × JVal)) : Bool × String :=
  if ¬ pyHasKey qp "query_type" then (false, "Missing required field: query_type")
  else if ¬ pyHasKey qp "limit" then (false, "Missing required field: limit")
  else
    match pyGet qp "query_type" with
    | some (JVal.str t) =>
      if t = "scan" ∨ t = "query" then
        if t = "query" ∧ ¬ pyTruthy (pyGetD qp "partition_key") then
          (false, "query type requires partition_key")
        else (true, "Valid query")
      else (false, "query_type must be 'scan' or 'query'")
    | _ => (false, "query_type must be 'scan' or 'query'")

/-! ## The prompt of the Query Compiler (`_prepare_schema`, C7) -/

/-- `TABLE_SCHEMA.format(...)` (src/query_generator.py, lines 10-36): the
schema template with its four placeholders spliced in. -/
def tableSchemaFormat (concerns emergingRisks miscTopics naicsData : String) : String :=
  "\n"
    ++ "Table Name: CrawledData\n"
    ++ "\n"
    ++ "Primary Key: \n"
    ++ "- Partition Key: URL (String) - The unique URL of the crawled article\n"
    ++ "- Sort Key: DateTime (String) - ISO 8601 timestamp when the article was processed\n"
    ++ "\n"
    ++ "Attributes:\n"
    ++ "- Title (String): Title of the article\n"
    ++ "- Source (String): Source website/publication of the article\n"
    ++ "- URL (String): The web address of the article\n"
    ++ "- Data (String): Full text content of the article\n"
    ++ "- Description (String): Brief description or excerpt from the article\n"
    ++ "- ReasonIdentified (String): AI-generated summary focusing on insurance-relevant risks and exposures\n"
    ++ "- Concerns (String): Semicolon-separated list of identified concern events (e.g., \"injuries;property damage;lawsuits\")\n"
    ++ "- EmergingRiskName (String): Semicolon-separated list of emerging risk categories (e.g., \"Climate Change;PFAS;Ransomware\")\n"
    ++ "- MiscTopics (String): Semicolon-separated list of miscellaneous insurance topics (e.g., \"home ownership;personal auto\")\n"
    ++ "- NAICSCODE (String): Industry classification code (e.g., \"327910\")\n"
    ++ "- NAICSDescription (String): Description of the NAICS code industry (e.g., \"Abrasive Product Manufacturing\")\n"
    ++ "- Tag (String): Classification tag - one of: \"Current\", \"Potential New Trend\", \"Untagged\", \"Processing Error\"\n"
    ++ "\n"
    ++ "Available Values for Classification Fields:\n"
    ++ "- Concerns: "
  ++ concerns
  ++ "\n"
    ++ "- Emerging Risks: "
  ++ emergingRisks
  ++ "\n"
    ++ "- Misc Topics: "
  ++ miscTopics
  ++ "\n"
    ++ "- NAICS Codes: "
  ++ naicsData
  ++ "\n"

/-- The text of `QUERY_GENERATION_PROMPT` before the `schema`
placeholder (src/query_generator.py, lines 38-151). -/
def qgpSegA : String :=
    "\n"
  ++ "<role>You are an expert at converting natural language queries into DynamoDB filter expressions and query parameters.</role>\n"
  ++ "\n"
  ++ "<table_schema>\n"

/-- The text of `QUERY_GENERATION_PROMPT` between the `schema` and
`query` placeholders. -/
def qgpSegB : String :=
  "\n"
  ++ "</table_schema>\n"
  ++ "\n"
  ++ "<task>\n"
  ++ "Convert the following user query into a structured JSON response that can be used to query DynamoDB.\n"
  ++ "</task>\n"
  ++ "\n"
  ++ "<user_query>\n"

/-- The text of `QUERY_GENERATION_PROMPT` after the `query` placeholder. -/
def qgpSegC : String :=
  "\n"
  ++ "</user_query>\n"
  ++ "\n"
  ++ "<instructions>\n"
  ++ "1. Analyze the user's intent and identify which fields they're querying\n"
  ++ "2. Determine if this is a simple scan with filters or if specific keys are mentioned\n"
  ++ "3. For concerns, emerging risks, or misc topics - match against the available values provided in the schema\n"
  ++ "4. Generate appropriate filter expressions using DynamoDB syntax:\n"
  ++ "   - Use \"attribute_exists(field)\" to check if field exists\n"
  ++ "   - Use \"contains(field, value)\" for substring matching\n"
  ++ "   - DynamoDB does NOT support functions like lower() or upper()\n"
  ++ "   - For case-insensitive intent, assume data is pre-normalized (e.g., stored lowercase) or leave filtering to application layer\n"
  ++ "   - Use \"field = value\" for exact matching\n"
  ++ "   - Use \"begins_with(field, value)\" for prefix matching\n"
  ++ "   - Use \"field IN (value1, value2)\" for multiple value matching\n"
  ++ "   - Use \"AND\", \"OR\" for combining conditions\n"
  ++ "5. For date ranges, convert to ISO format and use comparison operators\n"
  ++ "6. ALWAYS set projection_attributes to null - we ALWAYS want ALL columns returned\n"
  ++ "\n"
  ++ "</instructions>\n"
  ++ "\n"
  ++ "<output_format>\n"
  ++ "Return ONLY valid JSON in this exact structure:\n"
  ++ "\n"
  ++ "    \"query_type\": \"scan\" or \"query\",\n"
  ++ "    \"partition_key\": (\"name\": \"URL\", \"value\": \"specific_url\") or null,\n"
  ++ "    \"filter_expression\": \"DynamoDB filter expression string\" or null,\n"
  ++ "    \"expression_attribute_names\": (\"#tag\": \"Tag\", \"#concerns\": \"Concerns\") or null,\n"
  ++ "    \"expression_attribute_values\": (\":tag_val\": \"Current\", \":concern_val\": \"injuries\") or null,\n"
  ++ "    \"projection_attributes\": null,\n"
  ++ "    \"limit\": 200,\n"
  ++ "    \"explanation\": \"Brief explanation of what the query does\"\n"
  ++ "\n"
  ++ "IMPORTANT: projection_attributes MUST ALWAYS be null - we always return ALL columns from the database.\n"
  ++ "</output_format>\n"
  ++ "\n"
  ++ "<examples>\n"
  ++ "User Query: \"Show me all articles tagged as Current\"\n"
  ++ "Response:\n"
  ++ "\n"
  ++ "    \"query_type\": \"scan\",\n"
  ++ "    \"partition_key\": null,\n"
  ++ "    \"filter_expression\": \"#tag = :tag_val\",\n"
  ++ "    \"expression_attribute_names\": \"#tag\": \"Tag\",\n"
  ++ "    \"expression_attribute_values\": \":tag_val\": \"Current\",\n"
  ++ "    \"projection_attributes\": null,\n"
  ++ "    \"limit\": 200,\n"
  ++ "    \"explanation\": \"Scanning for all records where Tag equals 'Current'\"\n"
  ++ "\n"
  ++ "User Query: \"Find articles about climate change with PFAS concerns\"\n"
  ++ "Response:\n"
  ++ "\n"
  ++ "    \"query_type\": \"scan\",\n"
  ++ "    \"partition_key\": null,\n"
  ++ "    \"filter_expression\": \"contains(#emerg, :emerg_val1) AND contains(#emerg, :emerg_val2)\",\n"
  ++ "    \"expression_attribute_names\": \"#emerg\": \"EmergingRiskName\",\n"
  ++ "    \"expression_attribute_values\": \":emerg_val1\": \"Climate Change\", \":emerg_val2\": \"PFAS\",\n"
  ++ "    \"projection_attributes\": null,\n"
  ++ "    \"limit\": 200,\n"
  ++ "    \"explanation\": \"Finding articles with both Climate Change and PFAS in emerging risks\"\n"
  ++ "\n"
  ++ "User Query: \"Show articles about lawsuits or property damage\"\n"
  ++ "Response:\n"
  ++ "\n"
  ++ "    \"query_type\": \"scan\",\n"
  ++ "    \"partition_key\": null,\n"
  ++ "    \"filter_expression\": \"contains(#concerns, :concern1) OR contains(#concerns, :concern2)\",\n"
  ++ "    \"expression_attribute_names\": \"#concerns\": \"Concerns\",\n"
  ++ "    \"expression_attribute_values\": \":concern1\": \"lawsuits\", \":concern2\": \"property damage\",\n"
  ++ "    \"projection_attributes\": null,\n"
  ++ "    \"limit\": 200,\n"
  ++ "    \"explanation\": \"Finding articles containing lawsuits or property damage concerns\"\n"
  ++ "\n"
  ++ "\n"
  ++ "User Query: \"Show all articles\"\n"
  ++ "Response:\n"
  ++ "\n"
  ++ "    \"query_type\": \"scan\",\n"
  ++ "    \"partition_key\": null,\n"
  ++ "    \"filter_expression\": null,\n"
  ++ "    \"expression_attribute_names\": null,\n"
  ++ "    \"expression_attribute_values\": null,\n"
  ++ "    \"projection_attributes\": null,\n"
  ++ "    \"limit\": 200,\n"
  ++ "    \"explanation\": \"Retrieving all articles from the database\"\n"
  ++ "\n"
  ++ "</examples>\n"
  ++ "\n"
  ++ "<critical_rules>\n"
  ++ "- For Concerns, Emerging Risks, and Misc Topics: ALWAYS use values from the available lists in the schema\n"
  ++ "- Use \"contains()\" for fields that store semicolon-separated values\n"
  ++ "- Field names starting with uppercase letters need attribute name placeholders (#fieldname)\n"
  ++ "- Always include \"limit\" to prevent overwhelming results\n"
  ++ "- Set query_type to \"query\" ONLY if partition key (URL) is specifically mentioned\n"
  ++ "- For untagged records: filter_expression should check for Tag being \"Untagged\" OR attribute_not_exists(Tag). \n"
  ++ "  (Empty string values must be handled in the application layer, not in DynamoDB.)\n"
  ++ "- CRITICAL: projection_attributes MUST ALWAYS be null - never restrict columns, always return ALL attributes\n"
  ++ "- expression_attribute_names should be null if no filter_expression uses them\n"
  ++ "- expression_attribute_values should be null if no filter_expression uses them\n"
  ++ "</critical_rules>\n"
  ++ "\n"

/-- `QUERY_GENERATION_PROMPT.format(schema=..., query=...)`
(src/query_generator.py, lines 38-151). -/
def queryGenerationPromptFormat (schema query : String) : String :=
  qgpSegA ++ schema ++ qgpSegB ++ query ++ qgpSegC

/-- `QueryGenerator._prepare_schema` (src/query_generator.py, lines
159-166).  The taxonomy lists (`concerns_events`, `emerging_risks`,
`misc_topics`, `naics_data` from the `concern_risk_misc_naics` module,
which holds pure data) are parameters; NAICS entries are (code,
description) pairs.  `", ".join(xs)` is `String.intercalate ", " xs`,
and `xs[:20]` is `xs.take 20`. -/
def prepare_schema (concerns_events emerging_risks misc_topics : List String)
    (naics_data : List (String × String)) : String :=
  tableSchemaFormat
    (String.intercalate ", " (concerns_events.take 20) ++ "...")
    (String.intercalate ", " (emerging_risks.take 20) ++ "...")
    (String.intercalate ", " misc_topics)
    (String.intercalate ", "
      (naics_data.map (fun item => item.1 ++ " - " ++ item.2)))

/-! ## The tagging strategy (C1) -/

/-- Modelled from the spec: the Classification Pipeline stage that
assigns the article `Tag` is not part of this repository (only the
strategy text inside `FINAL_VERIFICATION_PROMPT`, src/prompts.py lines
145-153, declares it).  This is the decision tree of section 4.2 of the
spec, which reproduces that strategy text: concerns present and emerging
risks present and misc topics present gives Potential New Trend;
concerns and risks without misc topics gives Current; concerns without
risks gives Potential New Trend whatever the misc topics; no concerns
gives Untagged. -/
def computeTag (concerns risks misc : List String) : String :=
  if concerns ≠ [] then
    if risks ≠ [] then
      if misc ≠ [] then "Potential New Trend"
      else "Current"
    else "Potential New Trend"
  else "Untagged"

/-! ## Pagination of `InsuranceQueryApp.execute_dynamodb_query` (C8)

src/app.py, lines 218-223: the first scan/query response yields `items`;
then `while 'LastEvaluatedKey' in response and len(items) <
query_params.get("limit", 100): ... items.extend(response.get('Items',
[]))`.  The store is modelled by the sequence of responses it serves:
each response carries its rows and whether it includes a
`LastEvaluatedKey` continuation token (a real store answers every
continuation request, so the responses consumed never outrun the list
under the end-of-data hypothesis used in the theorem).  The source
issues every continuation request as a `table.scan` with the same
kwargs — also when the first request was a `table.query` — and the
model treats each request as consuming the next response. -/

/-- One store response: its rows and whether a continuation token
(`LastEvaluatedKey`) is present. -/
structure Page (α : Type) where
  items : List α
  more : Bool

/-- The accumulation loop, with `acc` the rows collected so far and
`more` the token flag of the response just consumed. -/
def accumulatePages {α : Type} (limit : Nat) (acc : List α) (more : Bool) :
    List (Page α) → List α
  | [] => acc
  | p :: rest =>
    if more ∧ acc.length < limit then
      accumulatePages limit (acc ++ p.items) p.more rest
    else acc

/-- `execute_dynamodb_query` restricted to its result-accumulation part:
the first response, then the loop.  `limit` is the query-description
limit (the code reads it with default `100` when absent). -/
def execute_pagination {α : Type} (limit : Nat) : List (Page α) → List α
  | [] => []
  | p :: rest => accumulatePages limit p.items p.more rest

/-- Concatenation of the rows of a list of responses, in order. -/
def joinItems {α : Type} (ps : List (Page α)) : List α :=
  (ps.map Page.items).flatten

/-- Token flag governing the `j`-th fetch (1-based): the flag of the
`j`-th response. -/
def moreAt {α : Type} (ps : List (Page α)) (j : Nat) : Bool :=
  match ps.drop (j - 1) with
  | [] => false
  | p :: _ => p.more

/-- Token flag of the final response (`false` means end of data: a
DynamoDB scan or query omits `LastEvaluatedKey` on its last page). -/
def lastMore {α : Type} : List (Page α) → Bool
  | [] => false
  | [p] => p.more
  | _ :: q :: rest => lastMore (q :: rest)

/-- Token flag of the final response of `rest`, starting from the flag
`more` of the response already consumed. -/
def lastFlag {α : Type} (more : Bool) : List (Page α) → Bool
  | [] => more
  | p :: rest => lastFlag p.more rest

/-- Token flag before the `j`-th continuation fetch of the loop, `more`
being the flag of the response consumed before the loop started. -/
def flagAt {α : Type} (more : Bool) (rest : List (Page α)) : Nat → Bool
  | 0 => more
  | j + 1 =>
    match rest.drop j with
    | [] => false
    | p :: _ => p.more

/-! ## `DynamoDBClient.update_record_by_url` (C10)

src/dynamo.py, lines 101-173.  The table is a list of records; the store
serves a partition-key query as the url-matching records in table order,
and `update_item` on the composite key rewrites the named non-key
attributes of the record with that key.  `update_item` with an update
expression that sets a key attribute (`URL`, `DateTime`), or whose
placeholder is not a valid token, is rejected by DynamoDB with a
`ValidationException` before any write; the code then falls back to
`_update_by_scan_method` (lines 175-218), whose own `update_item` fails
the same way, so that path returns `False` with the table unchanged and
is modelled as such. -/

/-- One stored record: partition key `URL`, sort key `DateTime`, and the
non-key attributes. -/
structure DRecord (α : Type) where
  url : String
  dt : String
  attrs : List (String × α)

/-- `{k: v for k, v in updates.items() if v is not None}`. -/
def filterNoneUpdates {α : Type} (updates : List (String × Option α)) :
    List (String × α) :=
  updates.filterMap (fun kv => kv.2.map (fun v => (kv.1, v)))

/-- Set one attribute: replace its first binding, or append it. -/
def setAttr {α : Type} : List (String × α) → String → α → List (String × α)
  | [], k, v => [(k, v)]
  | kv0 :: rest, k, v =>
    if kv0.1 = k then (k, v) :: rest else kv0 :: setAttr rest k v

/-- Read one attribute. -/
def getAttr {α : Type} : List (String × α) → String → Option α
  | [], _ => none
  | kv :: rest, k => if kv.1 = k then some kv.2 else getAttr rest k

/-- The `update_item` write: `SET` each filtered field on the record. -/
def applyUpdates {α : Type} (filtered : List (String × α)) (r : DRecord α) :
    DRecord α :=
  { r with attrs := filtered.foldl (fun as kv => setAttr as kv.1 kv.2) r.attrs }

/-- Rewrite the first record satisfying `p` with `f`; the rest is kept. -/
def updateFirst {α : Type} (p : DRecord α → Bool) (f : DRecord α → DRecord α) :
    List (DRecord α) → List (DRecord α)
  | [] => []
  | r :: rest => if p r then f r :: rest else r :: updateFirst p f rest

/-- A field name DynamoDB accepts as an expression placeholder token. -/
def validAttrName (k : String) : Bool :=
  ¬ (k = "") ∧ k.toList.all (fun c => c.isAlphanum ∨ c = '_')

/-- `DynamoDBClient.update_record_by_url`: guard on the empty url, filter
`None` update values, guard on no remaining updates, query the records
with this url (the first is the one updated; its `DateTime` becomes the
sort key of the write), guard on a falsy `DateTime`, and the
`ValidationException` path described above; otherwise write the filtered
fields on the record with that composite key. -/
def update_record_by_url {α : Type} (table : List (DRecord α)) (url : String)
    (updates : List (String × Option α)) : Bool × List (DRecord α) :=
  if url = "" then (false, table)
  else if (filterNoneUpdates updates).isEmpty then (false, table)
  else
    match table.filter (fun r => r.url = url) with
    | [] => (false, table)
    | r :: _ =>
      if r.dt = "" then (false, table)
      else if (filterNoneUpdates updates).any
          (fun kv => kv.1 = "URL" ∨ kv.1 = "DateTime" ∨ ¬ validAttrName kv.1)
      then (false, table)
      else
        (true, updateFirst (fun x => x.url = url ∧ x.dt = r.dt)
          (applyUpdates (filterNoneUpdates updates)) table)

/-! ## Spec-side definitions and concrete completions for claims C2-C6 -/

/-- The extraction as the specification describes it: an ordered list of
independent parser strategies tried in sequence, each returning an
optional result — direct parse, then fenced block, then greedy brace
span — with the empty dict when all fail.  Written from the words of the
spec for comparison with `extract_json`, the embedding of the source. -/
def strategyDirect (s : String) : Option JVal := jsonParse s.toList

/-- Fenced-block strategy: the fenced search, then a parse of its group. -/
def strategyFenced (s : String) : Option JVal :=
  (searchFenced s.toList).bind jsonParse

/-- Greedy-brace strategy: the greedy search, then a parse of its span. -/
def strategyGreedy (s : String) : Option JVal :=
  (searchGreedy s.toList).bind jsonParse

/-- The spec-side extraction: strategies in sequence, default on total
failure. -/
def extract_json_spec (s : String) : JVal :=
  (((strategyDirect s).orElse (fun _ => strategyFenced s)).orElse
    (fun _ => strategyGreedy s)).getD (JVal.obj [])

/-- A completion whose only well-formed JSON is the greedy brace span
(the braces inside its string literal make the fenced group `\x7ba\x7d`
unparsable). -/
def fenced_inside_string : String := "x \x7b\"k\": \"``` \x7ba\x7d ```\"\x7d"

/-- A completion that parses directly and carries a non-null
`projection_attributes`. -/
def projection_completion : String :=
  "\x7b\"query_type\": \"scan\", \"limit\": 5, \"projection_attributes\": [\"Title\"]\x7d"

/-- A completion that parses directly and omits `limit`. -/
def scan_only_completion : String := "\x7b\"query_type\": \"scan\"\x7d"

/-- A completion that parses directly and carries `limit`. -/
def scan_with_limit_completion : String :=
  "\x7b\"query_type\": \"scan\", \"limit\": 200\x7d"

/-! ## Concrete evaluations of the embedding -/

example : jsonParse "null".toList = some JVal.null := rfl

example : jsonParse "  \x7b\x7d ".toList = some (JVal.obj []) := rfl

example : jsonParse "\x7b\"a\": 1\x7d".toList
    = some (JVal.obj [("a", JVal.num "1")]) := rfl

example : jsonParse "\x7b\"a\": [1, \"x\", true], \"b\": null\x7d".toList
    = some (JVal.obj [("a", JVal.arr [JVal.num "1", JVal.str "x", JVal.bool true]),
        ("b", JVal.null)]) := rfl

example : jsonParse "".toList = none := rfl

example : jsonParse "\x7ba\x7d".toList = none := rfl

example : jsonParse "not json".toList = none := rfl

example : jsonParse "\x7b\"k\": \"``` \x7ba\x7d ```\"\x7d".toList
    = some (JVal.obj [("k", JVal.str "``` \x7ba\x7d ```")]) := rfl

example : jsonParse "-12.5e3".toList = some (JVal.num "-12.5e3") := rfl

example : jsonParse "01".toList = none := rfl

example : searchFenced "no fence here".toList = none := rfl

example : searchFenced "x ```json \x7b\"a\": 1\x7d ``` y".toList
    = some "\x7b\"a\": 1\x7d".toList := rfl

example : searchFenced "``` \x7b\"a\": \x7b\"b\": 1\x7d\x7d ```".toList
    = some "\x7b\"a\": \x7b\"b\": 1\x7d\x7d".toList := rfl

example : searchGreedy "pre \x7b\"a\": 1\x7d post".toList
    = some "\x7b\"a\": 1\x7d".toList := rfl

example : searchGreedy "no braces".toList = none := rfl

example : searchGreedy "a \x7bx\x7d b \x7by\x7d c".toList
    = some "\x7bx\x7d b \x7by\x7d".toList := rfl

example : extract_json "" = JVal.obj [] := rfl

example : extract_json "plain prose, no json" = JVal.obj [] := rfl

example : extract_json "\x7b\"a\": 1\x7d" = JVal.obj [("a", JVal.num "1")] := rfl

example : extract_json "noise ```json\n\x7b\"a\": 1\x7d\n``` more"
    = JVal.obj [("a", JVal.num "1")] := rfl

example : extract_json "the answer is \x7b\"a\": 1\x7d here"
    = JVal.obj [("a", JVal.num "1")] := rfl

example : generate_query (Except.ok "") = default_query := rfl

example : generate_query (Except.error "ConnectTimeoutError") = default_query := rfl

example : validate_query default_query = (true, "Valid query") := rfl

example : validate_query [] = (false, "Missing required field: query_type") := rfl

example : validate_query [("query_type", JVal.str "query"), ("limit", JVal.num "5")]
    = (false, "query type requires partition_key") := rfl

example : computeTag ["lawsuits"] [] [] = "Potential New Trend" := rfl

example : computeTag [] ["PFAS"] ["home ownership"] = "Untagged" := rfl

example : computeTag ["injuries"] ["PFAS"] ["home ownership"]
    = "Potential New Trend" := rfl

example : computeTag ["injuries"] ["PFAS"] [] = "Current" := rfl

example : execute_pagination 3 [Page.mk [1, 2] true, Page.mk [3] true, Page.mk [4] false]
    = [1, 2, 3] := rfl

example : execute_pagination 10 [Page.mk [1, 2] true, Page.mk [3] true, Page.mk [4] false]
    = [1, 2, 3, 4] := rfl

example : execute_pagination 10 [Page.mk [1, 2] false, Page.mk [3] false]
    = [1, 2] := rfl

example :
    update_record_by_url
      [DRecord.mk "u1" "t1" [("Tag", "Untagged")],
       DRecord.mk "u2" "t2" [("Tag", "Current")]]
      "u2" [("Tag", some "Untagged"), ("Concerns", none)]
    = (true,
       [DRecord.mk "u1" "t1" [("Tag", "Untagged")],
        DRecord.mk "u2" "t2" [("Tag", "Untagged")]]) := rfl

example :
    update_record_by_url [DRecord.mk "u1" "t1" [("Tag", "Current")]]
      "u9" [("Tag", some "Untagged")]
    = (false, [DRecord.mk "u1" "t1" [("Tag", "Current")]]) := rfl

example :
    update_record_by_url [DRecord.mk "u1" "t1" [("Tag", "Current")]]
      "u1" [("Tag", (none : Option String))]
    = (false, [DRecord.mk "u1" "t1" [("Tag", "Current")]]) := rfl

/-! ## Claims C2-C6: the Query Compiler -/

/-- C2, counterexample: on a Gateway error (`invoke_model` raising, here
a transport failure), `generate_query` returns the default
query-description — the error is swallowed by its `except Exception`
handler and the default IS substituted, contradicting the claim. -/
theorem generate_query_swallows_gateway_error :
    generate_query (Except.error "ConnectTimeoutError") = default_query := rfl

/-- C2, amended: for every Gateway error, `generate_query` catches the
exception and returns the default query-description instead of
propagating a hard error. -/
theorem generate_query_error_returns_default (e : String) :
    generate_query (Except.error e) = default_query := rfl

/-- C3: evaluated at the failing input, `generate_query` returns the
parsed completion unchanged, with `projection_attributes` equal to the
non-null list the completion set — the compiler performs no post-parse
override, although its own prompt contract states the field must always
be null. -/
theorem generate_query_keeps_projection :
    generate_query (Except.ok projection_completion)
      = [("query_type", JVal.str "scan"), ("limit", JVal.num "5"),
         ("projection_attributes", JVal.arr [JVal.str "Title"])] ∧
    pyGet (generate_query (Except.ok projection_completion))
        "projection_attributes" = some (JVal.arr [JVal.str "Title"]) ∧
    JVal.arr [JVal.str "Title"] ≠ JVal.null := by
  refine ⟨rfl, rfl, ?_⟩
  intro h
  exact JVal.noConfusion h

/-- C4: whenever extraction produces the empty dict (in particular when
every fallback fails), `generate_query` returns — it cannot raise, being
a total function — the default query-description, whose fields are
exactly those the claim lists. -/
theorem generate_query_default_on_extraction_failure (t : String)
    (h : extract_json t = JVal.obj []) :
    generate_query (Except.ok t) = default_query ∧
    pyGet default_query "query_type" = some (JVal.str "scan") ∧
    pyGet default_query "partition_key" = some JVal.null ∧
    pyGet default_query "filter_expression" = some JVal.null ∧
    pyGet default_query "expression_attribute_names" = some JVal.null ∧
    pyGet default_query "expression_attribute_values" = some JVal.null ∧
    pyGet default_query "projection_attributes" = some JVal.null ∧
    pyGet default_query "explanation"
      = some (JVal.str "Showing all records (default query)") := by
  refine ⟨?_, rfl, rfl, rfl, rfl, rfl, rfl, rfl⟩
  simp only [generate_query]
  rw [h]
  rfl

/-- C4, witness: the empty completion fails every fallback and yields
the default query-description. -/
theorem generate_query_default_witness :
    extract_json "" = JVal.obj [] ∧
    generate_query (Except.ok "") = default_query :=
  ⟨rfl, (generate_query_default_on_extraction_failure "" rfl).1⟩

/-- C5, counterexample: the completion `scan_only_completion` omits
`limit`, parses, and is returned unchanged: the resulting
query-description has no `limit` key at all — no schema-level default is
injected. -/
theorem generate_query_no_limit_injected :
    generate_query (Except.ok scan_only_completion)
      = [("query_type", JVal.str "scan")] ∧
    pyHasKey (generate_query (Except.ok scan_only_completion)) "limit"
      = false := ⟨rfl, rfl⟩

/-- C5, amended: `generate_query` returns a truthy parsed completion
verbatim (so a `limit` key is present exactly when the completion
carried one), and only the fallback default query-description is
guaranteed a `limit`, whose value is 50, not 200. -/
theorem generate_query_limit_passthrough :
    (∀ (t : String) (fields : List (String × JVal)),
      extract_json t = JVal.obj fields → pyTruthy (JVal.obj fields) = true →
      generate_query (Except.ok t) = fields) ∧
    pyGet default_query "limit" = some (JVal.num "50") := by
  refine ⟨?_, rfl⟩
  intro t fields h ht
  simp only [generate_query]
  rw [h, ht]
  rfl

/-- C5, witness for the amended claim: a completion carrying a limit is
passed through with that limit. -/
theorem generate_query_limit_passthrough_witness :
    extract_json scan_with_limit_completion
      = JVal.obj [("query_type", JVal.str "scan"), ("limit", JVal.num "200")] ∧
    generate_query (Except.ok scan_with_limit_completion)
      = [("query_type", JVal.str "scan"), ("limit", JVal.num "200")] :=
  ⟨rfl, generate_query_limit_passthrough.1 scan_with_limit_completion
    [("query_type", JVal.str "scan"), ("limit", JVal.num "200")] rfl rfl⟩

/-- C6, counterexample: on `fenced_inside_string` the source extraction
returns the empty dict (the fenced block matches, its group fails to
parse, and the `except` handler returns at once), while the claimed
strategy sequence goes on to the greedy span and parses the embedded
object — so `_extract_json` does not apply the three strategies in
sequence as stated. -/
theorem extract_json_not_strategy_sequence :
    extract_json fenced_inside_string = JVal.obj [] ∧
    extract_json_spec fenced_inside_string
      = JVal.obj [("k", JVal.str "``` \x7ba\x7d ```")] ∧
    extract_json fenced_inside_string ≠ extract_json_spec fenced_inside_string := by
  refine ⟨rfl, rfl, ?_⟩
  intro h
  rw [show extract_json fenced_inside_string = JVal.obj [] from rfl,
    show extract_json_spec fenced_inside_string
      = JVal.obj [("k", JVal.str "``` \x7ba\x7d ```")] from rfl] at h
  injection h with h1
  exact List.noConfusion h1

/-- C6, amended: the strategies are tried in the claimed order — direct
parse, fenced block, greedy span, empty dict — and the function never
raises, EXCEPT that when a fenced block is found and its group fails to
parse, the empty dict is returned at once and the greedy strategy is not
tried (it runs only when no fenced block matches). -/
theorem extract_json_strategy_order :
    (∀ (s : String) (v : JVal),
      jsonParse s.toList = some v → extract_json s = v) ∧
    (∀ (s : String) (g : List Char) (v : JVal),
      jsonParse s.toList = none → searchFenced s.toList = some g →
      jsonParse g = some v → extract_json s = v) ∧
    (∀ (s : String) (g : List Char),
      jsonParse s.toList = none → searchFenced s.toList = some g →
      jsonParse g = none → extract_json s = JVal.obj []) ∧
    (∀ (s : String) (g : List Char) (v : JVal),
      jsonParse s.toList = none → searchFenced s.toList = none →
      searchGreedy s.toList = some g → jsonParse g = some v →
      extract_json s = v) ∧
    (∀ s : String,
      jsonParse s.toList = none → searchFenced s.toList = none →
      (searchGreedy s.toList).bind jsonParse = none →
      extract_json s = JVal.obj []) := by
  refine ⟨?_, ?_, ?_, ?_, ?_⟩
  · intro s v h
    simp only [String.toList] at h
    simp [extract_json, h]
  · intro s g v h1 h2 h3
    simp only [String.toList] at h1 h2
    simp [extract_json, h1, h2, h3]
  · intro s g h1 h2 h3
    simp only [String.toList] at h1 h2
    simp [extract_json, h1, h2, h3]
  · intro s g v h1 h2 h3 h4
    simp only [String.toList] at h1 h2 h3
    simp [extract_json, h1, h2, h3, h4]
  · intro s h1 h2 h3
    cases hg : searchGreedy s.toList with
    | none =>
      simp only [String.toList] at h1 h2 hg
      simp [extract_json, h1, h2, hg]
    | some g =>
      rw [hg] at h3
      simp only [Option.some_bind] at h3
      simp only [String.toList] at h1 h2 hg
      simp [extract_json, h1, h2, hg, h3]

/-- C6, witness for the amended claim: a completion whose JSON lies in a
fenced block is parsed by the fenced strategy. -/
theorem extract_json_strategy_order_witness :
    extract_json "noise ```json\n\x7b\"a\": 1\x7d\n``` more"
      = JVal.obj [("a", JVal.num "1")] :=
  extract_json_strategy_order.2.1 "noise ```json\n\x7b\"a\": 1\x7d\n``` more"
    "\x7b\"a\": 1\x7d".toList (JVal.obj [("a", JVal.num "1")]) rfl rfl rfl

/-! ## Claims C1, C7, C9 -/

/-- C1: the tag is a pure deterministic function of the three
non-emptiness booleans, per the decision tree — concerns, risks and misc
all present give Potential New Trend; concerns and risks without misc
give Current; concerns without risks give Potential New Trend whatever
the misc topics; no concerns gives Untagged whatever the other two.  The
four conditional clauses cover all 8 boolean combinations, so the value
depends only on the three booleans. -/
theorem computeTag_decision_tree (c r m : List String) :
    (c ≠ [] → r ≠ [] → m ≠ [] → computeTag c r m = "Potential New Trend") ∧
    (c ≠ [] → r ≠ [] → m = [] → computeTag c r m = "Current") ∧
    (c ≠ [] → r = [] → computeTag c r m = "Potential New Trend") ∧
    (c = [] → computeTag c r m = "Untagged") := by
  refine ⟨?_, ?_, ?_, ?_⟩ <;> intros <;> simp_all [computeTag]

/-- C1, witness: the end-to-end scenarios — concerns `["lawsuits"]`
alone give Potential New Trend, no concerns give Untagged. -/
theorem computeTag_decision_tree_witness :
    computeTag ["lawsuits"] [] [] = "Potential New Trend" ∧
    computeTag [] ["Climate Change"] ["home ownership"] = "Untagged" :=
  ⟨(computeTag_decision_tree ["lawsuits"] [] []).2.2.1 (by simp) rfl,
   (computeTag_decision_tree [] ["Climate Change"] ["home ownership"]).2.2.2 rfl⟩

/-- C7: the schema text placed in the prompt holds exactly the first 20
concern entries joined and closed with an ellipsis marker, the first 20
emerging-risk entries likewise, the complete misc-topics list, and the
complete NAICS table with every code paired to its description; and the
prompt embeds that schema before the user text, so the schema is the
same for every user query. -/
theorem prepare_schema_content (ce er mt : List String)
    (nd : List (String × String)) :
    prepare_schema ce er mt nd
      = tableSchemaFormat
          (String.intercalate ", " (ce.take 20) ++ "...")
          (String.intercalate ", " (er.take 20) ++ "...")
          (String.intercalate ", " mt)
          (String.intercalate ", "
            (nd.map (fun item => item.1 ++ " - " ++ item.2))) ∧
    ∀ q : String,
      queryGenerationPromptFormat (prepare_schema ce er mt nd) q
        = qgpSegA ++ prepare_schema ce er mt nd ++ qgpSegB ++ q ++ qgpSegC :=
  ⟨rfl, fun _ => rfl⟩

/-- A boolean that is not true is false. -/
theorem bool_not_true {b : Bool} (h : ¬ b = true) : b = false := by
  cases b <;> simp_all

/-- A key is found by `pyGet` exactly when `pyHasKey` holds. -/
theorem pyGet_isSome_iff (d : List (String × JVal)) (k : String) :
    (pyGet d k).isSome = pyHasKey d k := by
  induction d with
  | nil => rfl
  | cons kv rest ih =>
    simp only [pyHasKey, List.any_cons] at ih ⊢
    simp only [pyGet]
    cases hr : pyGet rest k with
    | some v =>
      rw [hr] at ih
      simp only [Option.isSome_some] at ih ⊢
      rw [← ih, Bool.or_true]
    | none =>
      rw [hr] at ih
      simp only [Option.isSome_none] at ih
      rw [← ih, Bool.or_false]
      by_cases h : kv.1 = k
      · rw [if_pos h]
        simp [h]
      · rw [if_neg h]
        simp [h]

/-- C9: `validate_query` succeeds with `(True, "Valid query")` exactly
when both `query_type` and `limit` keys are present, the `query_type`
value is the string `scan` or `query`, and value `query` comes with a
truthy `partition_key`; each failing condition produces `False` with the
message naming it, and in particular `query` with a falsy or missing
`partition_key` always fails. -/
theorem validate_query_characterization (qp : List (String × JVal)) :
    (validate_query qp = (true, "Valid query") ↔
      pyHasKey qp "query_type" = true ∧ pyHasKey qp "limit" = true ∧
      (pyGet qp "query_type" = some (JVal.str "scan") ∨
        pyGet qp "query_type" = some (JVal.str "query")) ∧
      (pyGet qp "query_type" = some (JVal.str "query") →
        pyTruthy (pyGetD qp "partition_key") = true)) ∧
    (pyHasKey qp "query_type" = false →
      validate_query qp = (false, "Missing required field: query_type")) ∧
    (pyHasKey qp "query_type" = true → pyHasKey qp "limit" = false →
      validate_query qp = (false, "Missing required field: limit")) ∧
    (pyHasKey qp "query_type" = true → pyHasKey qp "limit" = true →
      ¬ (pyGet qp "query_type" = some (JVal.str "scan") ∨
        pyGet qp "query_type" = some (JVal.str "query")) →
      validate_query qp = (false, "query_type must be 'scan' or 'query'")) ∧
    (pyHasKey qp "limit" = true →
      pyGet qp "query_type" = some (JVal.str "query") →
      pyTruthy (pyGetD qp "partition_key") = false →
      validate_query qp = (false, "query type requires partition_key")) := by
  refine ⟨⟨?_, ?_⟩, ?_, ?_, ?_, ?_⟩
  · -- forward direction of the iff
    intro hv
    by_cases h1 : pyHasKey qp "query_type" = true
    · by_cases h2 : pyHasKey qp "limit" = true
      · rcases hq : pyGet qp "query_type" with _ | v
        · exfalso
          have hs := pyGet_isSome_iff qp "query_type"
          rw [hq, h1] at hs
          exact Bool.noConfusion hs
        · cases v with
          | str t =>
            by_cases hs : t = "scan"
            · subst hs
              refine ⟨h1, h2, Or.inl rfl, ?_⟩
              intro hcc
              injection hcc with hcc2
              exact absurd hcc2 (by simp)
            · by_cases hqr : t = "query"
              · subst hqr
                by_cases hp : pyTruthy (pyGetD qp "partition_key") = true
                · exact ⟨h1, h2, Or.inr rfl, fun _ => hp⟩
                · exfalso
                  simp [validate_query, h1, h2, hq, bool_not_true hp] at hv
              · exfalso
                simp [validate_query, h1, h2, hq, hs, hqr] at hv
          | null => exfalso; simp [validate_query, h1, h2, hq] at hv
          | bool b => exfalso; simp [validate_query, h1, h2, hq] at hv
          | num lit => exfalso; simp [validate_query, h1, h2, hq] at hv
          | arr xs => exfalso; simp [validate_query, h1, h2, hq] at hv
          | obj fs => exfalso; simp [validate_query, h1, h2, hq] at hv
      · exfalso; simp [validate_query, h1, bool_not_true h2] at hv
    · exfalso; simp [validate_query, bool_not_true h1] at hv
  · -- backward direction of the iff
    intro hc
    obtain ⟨hk, hl, hor, himp⟩ := hc
    rcases hor with hv | hv
    · simp [validate_query, hk, hl, hv]
    · simp [validate_query, hk, hl, hv, himp hv]
  · intro h1f
    simp [validate_query, h1f]
  · intro h1 h2f
    simp [validate_query, h1, h2f]
  · intro h1 h2 hne
    rcases hq : pyGet qp "query_type" with _ | v
    · exfalso
      have hs := pyGet_isSome_iff qp "query_type"
      rw [hq, h1] at hs
      exact Bool.noConfusion hs
    · cases v with
      | str t =>
        have hts : ¬ t = "scan" := by
          intro h
          exact hne (Or.inl (h ▸ hq))
        have htq : ¬ t = "query" := by
          intro h
          exact hne (Or.inr (h ▸ hq))
        simp [validate_query, h1, h2, hq, hts, htq]
      | null => simp [validate_query, h1, h2, hq]
      | bool b => simp [validate_query, h1, h2, hq]
      | num lit => simp [validate_query, h1, h2, hq]
      | arr xs => simp [validate_query, h1, h2, hq]
      | obj fs => simp [validate_query, h1, h2, hq]
  · intro h2 hq hp
    have h1 : pyHasKey qp "query_type" = true := by
      have hs := pyGet_isSome_iff qp "query_type"
      rw [hq] at hs
      exact hs.symm.trans rfl
    simp [validate_query, h1, h2, hq, hp]

/-- C9, witness: a `query`-typed dict with the `limit` key but no
`partition_key` fails validation with the partition-key message. -/
theorem validate_query_characterization_witness :
    validate_query [("query_type", JVal.str "query"), ("limit", JVal.num "5")]
      = (false, "query type requires partition_key") :=
  (validate_query_characterization
    [("query_type", JVal.str "query"), ("limit", JVal.num "5")]).2.2.2.2
    rfl rfl rfl

/-! ## Claim C8: page accumulation -/

/-- `lastMore` through the head. -/
theorem lastMore_eq_lastFlag {α : Type} (p : Page α) (rest : List (Page α)) :
    lastMore (p :: rest) = lastFlag p.more rest := by
  induction rest generalizing p with
  | nil => rfl
  | cons q rest ih => exact ih q

/-- `flagAt` through the head. -/
theorem flagAt_cons {α : Type} (more : Bool) (p : Page α)
    (rest : List (Page α)) (j : Nat) :
    flagAt more (p :: rest) (j + 1) = flagAt p.more rest j := by
  cases j with
  | zero => rfl
  | succ i => rfl

/-- `moreAt` through the head. -/
theorem moreAt_cons {α : Type} (p : Page α) (rest : List (Page α)) (j : Nat) :
    moreAt (p :: rest) (j + 1) = flagAt p.more rest j := by
  cases j with
  | zero => rfl
  | succ i => rfl

/-- `joinItems` through the head. -/
theorem joinItems_cons {α : Type} (p : Page α) (ps : List (Page α)) :
    joinItems (p :: ps) = p.items ++ joinItems ps := rfl

/-- The loop invariant of the accumulation `while`: it consumes some
prefix of the remaining responses, each continuation fetch was made with
the token present and strictly fewer rows than the limit, it stops
exactly when the token is absent or the limit is reached, and the result
is the rows collected so far followed by the consumed prefix in order. -/
theorem accumulatePages_spec {α : Type} :
    ∀ (rest : List (Page α)) (limit : Nat) (acc : List α) (more : Bool),
      lastFlag more rest = false →
      ∃ k, k ≤ rest.length ∧
        accumulatePages limit acc more rest = acc ++ joinItems (rest.take k) ∧
        (∀ j, j < k → flagAt more rest j = true ∧
          (acc ++ joinItems (rest.take j)).length < limit) ∧
        (flagAt more rest k = false ∨
          limit ≤ (acc ++ joinItems (rest.take k)).length) := by
  intro rest
  induction rest with
  | nil =>
    intro limit acc more hlast
    refine ⟨0, Nat.le_refl 0, ?_, ?_, Or.inl hlast⟩
    · simp [accumulatePages, joinItems]
    · intro j hj
      exact absurd hj (Nat.not_lt_zero j)
  | cons p rest ih =>
    intro limit acc more hlast
    by_cases hc : more = true ∧ acc.length < limit
    · obtain ⟨hm, hl⟩ := hc
      have hstep : accumulatePages limit acc more (p :: rest)
          = accumulatePages limit (acc ++ p.items) p.more rest := by
        simp [accumulatePages, hm, hl]
      obtain ⟨k, hk, hres, hcont, hstop⟩ :=
        ih limit (acc ++ p.items) p.more hlast
      refine ⟨k + 1, Nat.succ_le_succ hk, ?_, ?_, ?_⟩
      · rw [hstep, hres]
        simp [joinItems_cons, List.append_assoc]
      · intro j hj
        cases j with
        | zero =>
          refine ⟨hm, ?_⟩
          simpa using hl
        | succ i =>
          have hi : i < k := Nat.lt_of_succ_lt_succ hj
          obtain ⟨hf, hlen⟩ := hcont i hi
          refine ⟨?_, ?_⟩
          · rw [flagAt_cons]
            exact hf
          · simpa [joinItems_cons, List.append_assoc] using hlen
      · rcases hstop with h | h
        · left
          rw [flagAt_cons]
          exact h
        · right
          simpa [joinItems_cons, List.append_assoc] using h
    · refine ⟨0, Nat.zero_le _, ?_, ?_, ?_⟩
      · simp [accumulatePages, hc, joinItems]
      · intro j hj
        exact absurd hj (Nat.not_lt_zero j)
      · rcases not_and_or.mp hc with h | h
        · exact Or.inl (bool_not_true h)
        · right
          simpa using Nat.le_of_not_lt h

/-- C8: across the continuation token, the caller fetches some first `k`
responses, requesting a next page after a response exactly when that
response carried a token and fewer than `limit` rows were collected so
far; it stops exactly when the token is absent or at least `limit` rows
are collected (the final response carrying no token — end of data —
bounds the loop), and the returned rows are the concatenation of the
fetched pages in order. -/
theorem execute_pagination_accumulates {α : Type} (pages : List (Page α))
    (limit : Nat) (hne : pages ≠ []) (hlast : lastMore pages = false) :
    ∃ k, 1 ≤ k ∧ k ≤ pages.length ∧
      execute_pagination limit pages = joinItems (pages.take k) ∧
      (∀ j, 1 ≤ j → j < k → moreAt pages j = true ∧
        (joinItems (pages.take j)).length < limit) ∧
      (moreAt pages k = false ∨ limit ≤ (joinItems (pages.take k)).length) := by
  cases pages with
  | nil => exact absurd rfl hne
  | cons p rest =>
    rw [lastMore_eq_lastFlag] at hlast
    obtain ⟨k, hk, hres, hcont, hstop⟩ :=
      accumulatePages_spec rest limit p.items p.more hlast
    refine ⟨k + 1, Nat.succ_le_succ (Nat.zero_le k), Nat.succ_le_succ hk,
      ?_, ?_, ?_⟩
    · rw [show execute_pagination limit (p :: rest)
          = accumulatePages limit p.items p.more rest from rfl, hres]
      simp [joinItems_cons]
    · intro j hj1 hjk
      cases j with
      | zero => exact absurd hj1 (by simp)
      | succ i =>
        have hi : i < k := Nat.lt_of_succ_lt_succ hjk
        obtain ⟨hf, hlen⟩ := hcont i hi
        refine ⟨?_, ?_⟩
        · rw [moreAt_cons]
          exact hf
        · simpa [joinItems_cons] using hlen
    · rcases hstop with h | h
      · left
        rw [moreAt_cons]
        exact h
      · right
        simpa [joinItems_cons] using h

/-- C8, witness: a three-page store with limit 3 — the loop stops after
the second page, where the limit is reached. -/
theorem execute_pagination_accumulates_witness :
    ∃ k, 1 ≤ k ∧
      k ≤ [Page.mk [1, 2] true, Page.mk [3] true, Page.mk [4] false].length ∧
      execute_pagination 3
          [Page.mk [1, 2] true, Page.mk [3] true, Page.mk [4] false]
        = joinItems
            ([Page.mk [1, 2] true, Page.mk [3] true, Page.mk [4] false].take k) ∧
      (∀ j, 1 ≤ j → j < k →
        moreAt [Page.mk [1, 2] true, Page.mk [3] true, Page.mk [4] false] j
          = true ∧
        (joinItems
          ([Page.mk [1, 2] true, Page.mk [3] true,
            Page.mk [4] false].take j)).length < 3) ∧
      (moreAt [Page.mk [1, 2] true, Page.mk [3] true, Page.mk [4] false] k
          = false ∨
        3 ≤ (joinItems
          ([Page.mk [1, 2] true, Page.mk [3] true,
            Page.mk [4] false].take k)).length) :=
  execute_pagination_accumulates
    [Page.mk [1, 2] true, Page.mk [3] true, Page.mk [4] false] 3
    (by simp) rfl

/-! ## Claim C10: frame of `update_record_by_url` -/

/-- Setting one attribute leaves every other key unchanged. -/
theorem getAttr_setAttr_ne {α : Type} (as : List (String × α)) (k k' : String)
    (v : α) (h : k' ≠ k) : getAttr (setAttr as k v) k' = getAttr as k' := by
  induction as with
  | nil => simp [setAttr, getAttr, h, Ne.symm h]
  | cons kv rest ih =>
    by_cases hk : kv.1 = k
    · simp [setAttr, getAttr, hk, h, Ne.symm h]
    · simp [setAttr, getAttr, hk, ih]

/-- Folding the writes over the attribute list leaves every key not
named in the updates unchanged. -/
theorem getAttr_fold_setAttr {α : Type} (filtered : List (String × α))
    (k : String) :
    ∀ as, k ∉ filtered.map Prod.fst →
      getAttr (filtered.foldl (fun as kv => setAttr as kv.1 kv.2) as) k
        = getAttr as k := by
  induction filtered with
  | nil =>
    intro as _
    rfl
  | cons kv rest ih =>
    intro as h
    have h1 : k ≠ kv.1 := by
      intro he
      exact h (by simp [he])
    have h2 : k ∉ rest.map Prod.fst := by
      intro hm
      exact h (by simp [hm])
    rw [List.foldl_cons, ih _ h2, getAttr_setAttr_ne _ _ _ _ h1]

/-- `updateFirst` relates the old and new lists pointwise: each record
is kept, or satisfied the predicate and was rewritten by `f`. -/
theorem updateFirst_forall2 {α : Type} (p : DRecord α → Bool)
    (f : DRecord α → DRecord α) :
    ∀ l : List (DRecord α),
      List.Forall₂ (fun r r' => r' = r ∨ (p r = true ∧ r' = f r)) l
        (updateFirst p f l) := by
  intro l
  induction l with
  | nil => exact List.Forall₂.nil
  | cons r rest ih =>
    by_cases hp : p r = true
    · simp only [updateFirst, hp, if_true]
      exact List.Forall₂.cons (Or.inr ⟨hp, rfl⟩)
        (List.forall₂_same.mpr (fun x _ => Or.inl rfl))
    · simp only [updateFirst, hp, if_false]
      exact List.Forall₂.cons (Or.inl rfl) ih

/-- C10: `update_record_by_url` first discards `None`-valued updates;
with an empty url, no remaining update, or no record carrying the url it
returns `False` and writes nothing; and in every case the output table
is pointwise related to the input — each record keeps its `URL` and
`DateTime` keys and every attribute not named in the filtered updates,
and a record whose url differs from the argument is untouched
entirely. -/
theorem update_record_by_url_frame {α : Type} (table : List (DRecord α))
    (url : String) (updates : List (String × Option α)) :
    (url = "" → update_record_by_url table url updates = (false, table)) ∧
    (filterNoneUpdates updates = [] →
      update_record_by_url table url updates = (false, table)) ∧
    ((∀ r ∈ table, r.url ≠ url) →
      update_record_by_url table url updates = (false, table)) ∧
    List.Forall₂ (fun r r' =>
        r'.url = r.url ∧ r'.dt = r.dt ∧
        (∀ k, k ∉ (filterNoneUpdates updates).map Prod.fst →
          getAttr r'.attrs k = getAttr r.attrs k) ∧
        (r.url ≠ url → r' = r))
      table (update_record_by_url table url updates).2 := by
  have hrefl : List.Forall₂ (fun r r' =>
      r'.url = r.url ∧ r'.dt = r.dt ∧
      (∀ k, k ∉ (filterNoneUpdates updates).map Prod.fst →
        getAttr r'.attrs k = getAttr r.attrs k) ∧
      (r.url ≠ url → r' = r)) table table :=
    List.forall₂_same.mpr (fun r _ => ⟨rfl, rfl, fun _ _ => rfl, fun _ => rfl⟩)
  refine ⟨?_, ?_, ?_, ?_⟩
  · intro h
    simp [update_record_by_url, h]
  · intro h
    simp [update_record_by_url, h]
  · intro h
    have hfil : table.filter (fun r => r.url = url) = [] := by
      rw [List.filter_eq_nil_iff]
      intro r hr
      simp [h r hr]
    simp [update_record_by_url, hfil]
  · by_cases hu : url = ""
    · have heq : update_record_by_url table url updates = (false, table) := by
        simp [update_record_by_url, hu]
      rw [heq]
      exact hrefl
    · by_cases hf : (filterNoneUpdates updates).isEmpty = true
      · have heq : update_record_by_url table url updates = (false, table) := by
          simp [update_record_by_url, hu, hf]
        rw [heq]
        exact hrefl
      · cases hm : table.filter (fun r => r.url = url) with
        | nil =>
          have heq : update_record_by_url table url updates = (false, table) := by
            simp [update_record_by_url, hu, hf, hm]
          rw [heq]
          exact hrefl
        | cons r rs =>
          by_cases hdt : r.dt = ""
          · have heq : update_record_by_url table url updates = (false, table) := by
              simp [update_record_by_url, hu, hf, hm, hdt]
            rw [heq]
            exact hrefl
          · by_cases hkey : (filterNoneUpdates updates).any
                (fun kv => kv.1 = "URL" ∨ kv.1 = "DateTime" ∨
                  ¬ validAttrName kv.1) = true
            · have heq : update_record_by_url table url updates = (false, table) := by
                simp only [update_record_by_url, hm]
                rw [if_neg hu, if_neg hf, if_neg hdt, if_pos hkey]
              rw [heq]
              exact hrefl
            · have heq : update_record_by_url table url updates
                  = (true, updateFirst (fun x => x.url = url ∧ x.dt = r.dt)
                      (applyUpdates (filterNoneUpdates updates)) table) := by
                simp only [update_record_by_url, hm]
                rw [if_neg hu, if_neg hf, if_neg hdt, if_neg hkey]
              rw [heq]
              refine List.Forall₂.imp ?_
                (updateFirst_forall2 (fun x => x.url = url ∧ x.dt = r.dt)
                  (applyUpdates (filterNoneUpdates updates)) table)
              intro a b hab
              rcases hab with rfl | ⟨hp, rfl⟩
              · exact ⟨rfl, rfl, fun _ _ => rfl, fun _ => rfl⟩
              · have hu2 : a.url = url ∧ a.dt = r.dt := by simpa using hp
                exact ⟨rfl, rfl,
                  fun k hk => getAttr_fold_setAttr _ k a.attrs hk,
                  fun hne => absurd hu2.1 hne⟩

/-- C10, witness: an empty url and an unknown url both return `False`
with nothing written. -/
theorem update_record_by_url_frame_witness :
    update_record_by_url [DRecord.mk "u1" "t1" [("Tag", "Current")]] ""
        [("Tag", some "Untagged")]
      = (false, [DRecord.mk "u1" "t1" [("Tag", "Current")]]) ∧
    update_record_by_url [DRecord.mk "u1" "t1" [("Tag", "Current")]] "u9"
        [("Tag", some "Untagged")]
      = (false, [DRecord.mk "u1" "t1" [("Tag", "Current")]]) :=
  ⟨(update_record_by_url_frame [DRecord.mk "u1" "t1" [("Tag", "Current")]] ""
      [("Tag", some "Untagged")]).1 rfl,
   (update_record_by_url_frame [DRecord.mk "u1" "t1" [("Tag", "Current")]] "u9"
      [("Tag", some "Untagged")]).2.2.1 (by simp)⟩
